import Mathlib

/-!
Shallow embedding of the session interaction logic of `src/app/page.tsx`
(the `VoiceAssistant` component).

The React component is modelled as a record of its state hooks plus the
parts of the browser environment the handlers read and write
(`speechSynthesis`'s utterance queue, the speech-recognition availability
flag).  Each handler becomes a pure function `AppState → AppState × List Effect`,
where the `Effect` list records the externally visible effects the handler
issues (network dispatches, `speechSynthesis.speak`/`cancel`,
`recognition.stop`, and `setTimeout`-scheduled message removals).

The async `sendMessage` is split at its single suspension point (the
`await fetch`): `sendMessageStart` is the synchronous prefix up to issuing
the request, and `sendMessageResolve` is the continuation that runs when
the fetch settles, taking the settled outcome as a parameter.  Other code
(the `stopAll` caller, for instance) may run between the two phases, which
is exactly how the browser event loop interleaves them.

Message ids in the source are the string `Date.now() + "-" + counter` with a
strictly increasing per-component counter, so ids are unique; the model keeps
just the counter as the id (the timestamp component is dropped, it never
affects control flow).  `timestamp : Date` on messages is likewise dropped.
Fixed utterance parameters (rate/pitch/volume) and the `isSpeaking` flag
updates driven by utterance lifecycle callbacks are not needed by any claim
and are modelled only where the handlers write the flag directly.
-/

inductive Sender where
  | user
  | bot
deriving DecidableEq, Repr

inductive MsgType where
  | text
  | status
  | error
deriving DecidableEq, Repr

inductive ChatMode where
  | chat
  | voice
  | voiceCont
deriving DecidableEq, Repr

structure Message where
  id : Nat
  text : String
  sender : Sender
  type : MsgType
deriving DecidableEq, Repr

/-- External effects a handler issues, in order. -/
inductive Effect where
  | dispatch (question : String)
  | speakUtter (text : String)
  | cancelSpeech
  | stopRecognition
  | scheduleRemoval (delayMs : Nat) (msgId : Nat)
deriving DecidableEq, Repr

/-- The component state: the `useState` hooks of `VoiceAssistant`, the
`messageCounterRef` counter, and the modelled browser environment
(`synthQueue` is the `speechSynthesis` utterance queue — `speechSynthesis.speaking`
is its non-emptiness; `recognitionAvailable` is `recognitionRef.current !== null`). -/
structure AppState where
  messages : List Message
  inputText : String
  currentMode : ChatMode
  isProcessing : Bool
  isTyping : Bool
  speechEnabled : Bool
  isRecording : Bool
  isSpeaking : Bool
  connectionOnline : Bool
  messageCounter : Nat
  synthQueue : List String
  recognitionAvailable : Bool
deriving DecidableEq, Repr

/-- `addMessage` (page.tsx:98-115): bump the counter, append the message, and
for `status`-kind messages schedule their removal 5000ms later. -/
def addMessage (text : String) (sender : Sender) (type : MsgType) (s : AppState) :
    AppState × List Effect :=
  let counter := s.messageCounter + 1
  let m : Message := ⟨counter, text, sender, type⟩
  let s1 := { s with messages := s.messages ++ [m], messageCounter := counter }
  if type = .status then (s1, [.scheduleRemoval 5000 counter]) else (s1, [])

/-- The body of the `setTimeout` callback in `addMessage`:
filter the message with the given id out of the log. -/
def removeMessage (msgId : Nat) (s : AppState) : AppState :=
  { s with messages := s.messages.filter (fun m => m.id ≠ msgId) }

/-- `speak` (page.tsx:117-138): no-op when speech output is disabled or the
text is empty; otherwise cancel any in-progress utterance
(`speechSynthesis.speaking` ⇒ `cancel()`) and then speak the new one. -/
def speak (text : String) (s : AppState) : AppState × List Effect :=
  if !s.speechEnabled || text = "" then (s, [])
  else
    let (s1, a1) :=
      if s.synthQueue.isEmpty then (s, ([] : List Effect))
      else ({ s with synthQueue := [] }, [Effect.cancelSpeech])
    ({ s1 with synthQueue := s1.synthQueue ++ [text] }, a1 ++ [Effect.speakUtter text])

/-- JS `String.prototype.trim`: strip leading and trailing whitespace.
Defined over the character list so it is kernel-computable (the source only
uses it to test blankness and to normalize the submitted text). -/
def jsTrim (s : String) : String :=
  ⟨((s.data.dropWhile Char.isWhitespace).reverse.dropWhile Char.isWhitespace).reverse⟩

/-- `sendMessage`, synchronous prefix (page.tsx:140-159): reject blank text or
a send while one is already processing; when offline append an error message
instead of dispatching; otherwise set `isProcessing`, append the user message,
set `isTyping`, and issue the network dispatch. -/
def sendMessageStart (text : String) (s : AppState) : AppState × List Effect :=
  if jsTrim text = "" || s.isProcessing then (s, [])
  else if !s.connectionOnline then
    addMessage "❌ No internet connection. Please check your network and try again." .bot .error s
  else
    let s1 := { s with isProcessing := true }
    let (s2, a2) := addMessage text .user .text s1
    ({ s2 with isTyping := true }, a2 ++ [Effect.dispatch text])

/-- How the `await fetch` of `sendMessage` settles, seen from the `try`/`catch`:
a 2xx response whose parsed body may or may not carry an `answer` field, a
non-2xx response (the code throws `HTTP <status>` which lands in the catch),
an `AbortError` fired by the 15000ms timeout, or any other transport
rejection.  `navigatorOnline` is `navigator.onLine` as read inside the catch
block. -/
inductive DispatchOutcome where
  | success (answer : Option String)
  | httpError (status : Nat)
  | abortTimeout
  | transportFailure
deriving DecidableEq, Repr

/-- JS `data.answer || "I didn\x27t receive a proper response."`: a missing or
empty (falsy) `answer` field yields the fixed fallback string. -/
def answerTextOf (answer : Option String) : String :=
  match answer with
  | none => "I didn\x27t receive a proper response."
  | some a => if a = "" then "I didn\x27t receive a proper response." else a

/-- `sendMessage`, continuation after the fetch settles (page.tsx:161-190).
On success: clear `isTyping`, append the bot message, and speak it when
speech output is enabled.  On any failure: clear `isTyping`, classify the
error (`AbortError` → timed out; otherwise offline if `navigator.onLine` is
false; otherwise the generic message) and append an error-kind message.
Either way `isProcessing` is cleared at the end.  There is no staleness or
sequence-number check anywhere in this continuation: it runs the same way
whether or not `stopAll` ran while the request was in flight. -/
def sendMessageResolve (outcome : DispatchOutcome) (navigatorOnline : Bool)
    (s : AppState) : AppState × List Effect :=
  match outcome with
  | .success answer =>
      let answerText := answerTextOf answer
      let s1 := { s with isTyping := false }
      let (s2, a2) := addMessage answerText .bot .text s1
      let (s3, a3) := if s2.speechEnabled then speak answerText s2 else (s2, [])
      ({ s3 with isProcessing := false }, a2 ++ a3)
  | failure =>
      let errorMessage :=
        match failure with
        | .abortTimeout => "Request timed out. Please try again."
        | _ =>
            if !navigatorOnline then
              "You appear to be offline. Please check your internet connection."
            else
              "I\x27m having trouble connecting right now. "
      let s1 := { s with isTyping := false }
      let (s2, a2) := addMessage ("❌ " ++ errorMessage) .bot .error s1
      ({ s2 with isProcessing := false }, a2)

/-- `handleSendText` (page.tsx:195-200): when the pending input is non-blank,
submit its trimmed form and clear the input buffer; otherwise do nothing. -/
def handleSendText (s : AppState) : AppState × List Effect :=
  if jsTrim s.inputText = "" then (s, [])
  else
    let (s1, a1) := sendMessageStart (jsTrim s.inputText) s
    ({ s1 with inputText := "" }, a1)

/-- The `onresult` handler installed by `startRecording` (page.tsx:222-234):
in `chat` mode the transcript populates the input buffer; in either voice
mode it is appended as a user message and then submitted via `sendMessage`.
Either way `isRecording` is cleared. -/
def onResult (transcript : String) (s : AppState) : AppState × List Effect :=
  if s.currentMode = .chat then
    ({ s with inputText := transcript, isRecording := false }, [])
  else
    let (s1, a1) := addMessage transcript .user .text s
    let (s2, a2) := sendMessageStart transcript s1
    ({ s2 with isRecording := false }, a1 ++ a2)

/-- `stopAll` (page.tsx:296-307): stop recognition when it is recording,
cancel speech synthesis when it is speaking, and clear the four activity
flags.  It does not touch `messages`, and (in this minimal design) issues no
abort of an in-flight fetch. -/
def stopAll (s : AppState) : AppState × List Effect :=
  let a1 :=
    if s.recognitionAvailable && s.isRecording then [Effect.stopRecognition]
    else ([] : List Effect)
  let (q2, a2) :=
    if s.synthQueue.isEmpty then (s.synthQueue, ([] : List Effect))
    else (([] : List String), [Effect.cancelSpeech])
  ({ s with isRecording := false, isSpeaking := false, isProcessing := false,
            isTyping := false, synthQueue := q2 },
   a1 ++ a2)

/-- `switchMode` (page.tsx:309-315): `stopAll` then set the new mode. -/
def switchMode (mode : ChatMode) (s : AppState) : AppState × List Effect :=
  let (s1, a1) := stopAll s
  ({ s1 with currentMode := mode }, a1)

/-- The component's initial state (the `useState` initial values, with the
recognition engine available as on a supporting browser). -/
def initState : AppState where
  messages := []
  inputText := ""
  currentMode := .chat
  isProcessing := false
  isTyping := false
  speechEnabled := true
  isRecording := false
  isSpeaking := false
  connectionOnline := true
  messageCounter := 0
  synthQueue := []
  recognitionAvailable := true

/-- Claim C3: after every `switchMode` call, from any state, the capturing,
playing and dispatching flags are all false and the mode equals the requested
mode — `switchMode` always runs `stopAll` before applying the new mode. -/
theorem switchMode_quiesces (s : AppState) (m : ChatMode) :
    (switchMode m s).1.isRecording = false ∧
    (switchMode m s).1.isSpeaking = false ∧
    (switchMode m s).1.isProcessing = false ∧
    (switchMode m s).1.currentMode = m := by
  simp [switchMode, stopAll]

/-- Claim C4: calling `sendMessage` while `isProcessing` is true is a no-op
with respect to the conversation log and the dispatcher: the message list is
unchanged and no effect (in particular no network dispatch) is issued. -/
theorem sendMessage_gated_while_processing (text : String) (s : AppState)
    (h : s.isProcessing = true) :
    (sendMessageStart text s).1.messages = s.messages ∧
    (sendMessageStart text s).2 = [] := by
  simp [sendMessageStart, h]

/-- Witness for C4 at a concrete state with a dispatch in flight. -/
theorem sendMessage_gated_while_processing_witness :
    ({ initState with isProcessing := true } : AppState).isProcessing = true ∧
    ((sendMessageStart "hello" { initState with isProcessing := true }).1.messages =
       ({ initState with isProcessing := true } : AppState).messages ∧
     (sendMessageStart "hello" { initState with isProcessing := true }).2 = []) :=
  ⟨rfl, sendMessage_gated_while_processing "hello" _ rfl⟩

/-- Claim C5: when the dispatch settles as the 15000ms abort timeout, exactly
one error-kind message is appended, `isProcessing` and `isTyping` become
false, no assistant (bot text-kind) message is appended, and no playback or
other effect is triggered. -/
theorem dispatch_timeout_appends_error (s : AppState) (nav : Bool) :
    (sendMessageResolve .abortTimeout nav s).1.messages =
      s.messages ++
        [⟨s.messageCounter + 1, "❌ Request timed out. Please try again.",
          .bot, .error⟩] ∧
    (sendMessageResolve .abortTimeout nav s).1.isProcessing = false ∧
    (sendMessageResolve .abortTimeout nav s).1.isTyping = false ∧
    (sendMessageResolve .abortTimeout nav s).2 = [] := by
  simp [sendMessageResolve, addMessage]

/-- Claim C8: a transcript arriving in text-chat mode appends nothing to the
log, issues no dispatch (or any other effect), and populates the pending
input buffer with the transcript. -/
theorem chat_transcript_buffers (t : String) (s : AppState)
    (h : s.currentMode = .chat) :
    (onResult t s).1.messages = s.messages ∧
    (onResult t s).2 = [] ∧
    (onResult t s).1.inputText = t := by
  simp [onResult, h]

/-- Witness for C8 at the initial state with transcript "hello". -/
theorem chat_transcript_buffers_witness :
    (initState.currentMode = ChatMode.chat) ∧
    ((onResult "hello" initState).1.messages = initState.messages ∧
     (onResult "hello" initState).2 = [] ∧
     (onResult "hello" initState).1.inputText = "hello") :=
  ⟨rfl, chat_transcript_buffers "hello" initState rfl⟩

/-- Claim C6: submitting non-blank text with no dispatch in flight while the
connection is offline appends exactly one error-kind message (the offline
explanation) and issues no dispatch; submitting blank/whitespace text, or
submitting while a dispatch is in flight, appends nothing and issues
nothing. -/
theorem submitText_rejects (text : String) (s : AppState) :
    (jsTrim text ≠ "" → s.isProcessing = false → s.connectionOnline = false →
      (sendMessageStart text s).1.messages = s.messages ++
        [⟨s.messageCounter + 1,
          "❌ No internet connection. Please check your network and try again.",
          .bot, .error⟩] ∧
      (sendMessageStart text s).2 = []) ∧
    ((jsTrim text = "" ∨ s.isProcessing = true) →
      (sendMessageStart text s).1.messages = s.messages ∧
      (sendMessageStart text s).2 = []) := by
  constructor
  · intro ht hp hc
    simp [sendMessageStart, ht, hp, hc, addMessage]
  · rintro (h | h) <;> simp [sendMessageStart, h]

/-- Witness for C6: offline rejection at a concrete state, and the blank-text
rejection at the initial state. -/
theorem submitText_rejects_witness :
    ((sendMessageStart "hi" { initState with connectionOnline := false }).1.messages =
       ({ initState with connectionOnline := false } : AppState).messages ++
         [⟨({ initState with connectionOnline := false } : AppState).messageCounter + 1,
           "❌ No internet connection. Please check your network and try again.",
           .bot, .error⟩] ∧
     (sendMessageStart "hi" { initState with connectionOnline := false }).2 = []) ∧
    ((sendMessageStart "   " initState).1.messages = initState.messages ∧
     (sendMessageStart "   " initState).2 = []) :=
  ⟨(submitText_rejects "hi" { initState with connectionOnline := false }).1
      (by decide) rfl rfl,
   (submitText_rejects "   " initState).2 (Or.inl (by decide))⟩

/-- Claim C7: a status-kind message is scheduled for removal exactly 5000ms
after insertion, and firing that removal deletes exactly the inserted
message (given the counter-generated ids in the log are distinct from the
new id, which `addMessage`'s strictly increasing counter guarantees);
text-kind and error-kind messages schedule no removal at all. -/
theorem status_messages_ephemeral (text : String) (sender : Sender)
    (kind : MsgType) (s : AppState)
    (hid : ∀ m ∈ s.messages, m.id ≠ s.messageCounter + 1) :
    (kind = .status →
      (addMessage text sender kind s).2 =
        [Effect.scheduleRemoval 5000 (s.messageCounter + 1)] ∧
      (removeMessage (s.messageCounter + 1)
          (addMessage text sender kind s).1).messages = s.messages) ∧
    (kind ≠ .status → (addMessage text sender kind s).2 = []) := by
  constructor
  · intro hk
    subst hk
    refine ⟨by simp [addMessage], ?_⟩
    simp [addMessage, removeMessage, List.filter_append]
    exact fun a ha => hid a ha
  · intro hk
    simp [addMessage, hk]

/-- Witness for C7: a status message inserted at the initial state is
scheduled for removal after 5000ms and that removal restores the log;
an error message at the same state schedules nothing. -/
theorem status_messages_ephemeral_witness :
    ((addMessage "Listening..." Sender.bot MsgType.status initState).2 =
       [Effect.scheduleRemoval 5000 (initState.messageCounter + 1)] ∧
     (removeMessage (initState.messageCounter + 1)
         (addMessage "Listening..." Sender.bot MsgType.status initState).1).messages =
       initState.messages) ∧
    (addMessage "oops" Sender.bot MsgType.error initState).2 = [] :=
  ⟨(status_messages_ephemeral "Listening..." Sender.bot MsgType.status initState
      (by intro m hm; simp [initState] at hm)).1 rfl,
   (status_messages_ephemeral "oops" Sender.bot MsgType.error initState
      (by intro m hm; simp [initState] at hm)).2 (by decide)⟩

/-- Claim C9: `speak` with empty text is a no-op; when speech output is
enabled, the text is non-empty and the synthesizer is already speaking, the
call cancels the prior utterance before speaking the new one, leaving
exactly the new utterance active; and in every case the call leaves the
utterance queue either untouched or holding exactly the new utterance, so
at most one utterance is ever active. -/
theorem speak_preempts (text : String) (s : AppState) :
    (text = "" → speak text s = (s, [])) ∧
    (s.speechEnabled = true → text ≠ "" → s.synthQueue ≠ [] →
      (speak text s).2 = [Effect.cancelSpeech, Effect.speakUtter text] ∧
      (speak text s).1.synthQueue = [text]) ∧
    ((speak text s).1.synthQueue = s.synthQueue ∨
     (speak text s).1.synthQueue = [text]) := by
  refine ⟨?_, ?_, ?_⟩
  · intro h
    simp [speak, h]
  · intro he ht hq
    have hq2 : s.synthQueue.isEmpty = false := by
      cases h : s.synthQueue with
      | nil => exact absurd h hq
      | cons a l => simp
    simp [speak, he, ht, hq2]
  · by_cases hgate : !s.speechEnabled || text = ""
    · left; simp [speak, hgate]
    · by_cases hq : s.synthQueue.isEmpty
      · right
        simp at hq
        simp [speak, hgate, hq]
      · right
        simp at hq
        have hq2 : s.synthQueue.isEmpty = false := by
          cases h : s.synthQueue with
          | nil => exact absurd h hq
          | cons a l => simp
        simp [speak, hgate, hq2]

/-- Witness for C9: the empty-text no-op and the preemption at a concrete
state that is already speaking. -/
theorem speak_preempts_witness :
    (speak "" initState = (initState, [])) ∧
    ((speak "hi" { initState with synthQueue := ["old"] }).2 =
       [Effect.cancelSpeech, Effect.speakUtter "hi"] ∧
     (speak "hi" { initState with synthQueue := ["old"] }).1.synthQueue = ["hi"]) :=
  ⟨(speak_preempts "" initState).1 rfl,
   (speak_preempts "hi" { initState with synthQueue := ["old"] }).2.1
     rfl (by decide) (by decide)⟩

/-- Counterexample to claim C2: in voice (push-to-talk) mode, a transcript
"hello" arriving at the fresh state (no dispatch in flight, online) appends
TWO user messages with text "hello" — the `onresult` handler appends one and
`sendMessage` appends another — not exactly one as claimed. -/
theorem voice_transcript_double_user_message :
    ((onResult "hello" { initState with currentMode := .voice }).1.messages.filter
        (fun m => m.sender == Sender.user && m.text == "hello")).length = 2 := by
  decide

/-- Claim C2 (amended): in push-to-talk mode, with no dispatch in flight, the
network reachable, and a non-blank transcript `t`, the conversation log gains
exactly two user messages with text `t` (the transcript handler appends one
and `sendMessage` appends a second), and the dispatcher is invoked with `t`
exactly once. -/
theorem voice_transcript_appends_twice (t : String) (s : AppState)
    (hm : s.currentMode = .voice) (hp : s.isProcessing = false)
    (hc : s.connectionOnline = true) (ht : jsTrim t ≠ "") :
    (onResult t s).1.messages = s.messages ++
      [⟨s.messageCounter + 1, t, .user, .text⟩,
       ⟨s.messageCounter + 2, t, .user, .text⟩] ∧
    (onResult t s).2 = [Effect.dispatch t] := by
  simp [onResult, hm, sendMessageStart, ht, hp, hc, addMessage]

/-- Witness for the amended C2 at the fresh voice-mode state with
transcript "hello". -/
theorem voice_transcript_appends_twice_witness :
    (onResult "hello" { initState with currentMode := .voice }).1.messages =
      ({ initState with currentMode := .voice } : AppState).messages ++
        [⟨({ initState with currentMode := .voice } : AppState).messageCounter + 1,
          "hello", .user, .text⟩,
         ⟨({ initState with currentMode := .voice } : AppState).messageCounter + 2,
          "hello", .user, .text⟩] ∧
    (onResult "hello" { initState with currentMode := .voice }).2 =
      [Effect.dispatch "hello"] :=
  voice_transcript_appends_twice "hello" { initState with currentMode := .voice }
    rfl rfl rfl (by decide)

/-- Counterexample to claim C1: dispatch "hi" from the fresh state (the
dispatch effect is issued), run `stopAll` while it is in flight (so
`isProcessing` is false and nothing is awaiting a reply), then let the fetch
resolve successfully — the assistant (bot, text-kind) reply is still appended
to the log: the continuation has no staleness guard. -/
theorem stale_response_still_appended :
    (sendMessageStart "hi" initState).2 = [Effect.dispatch "hi"] ∧
    (stopAll (sendMessageStart "hi" initState).1).1.isProcessing = false ∧
    ((sendMessageResolve (.success (some "there")) true
        (stopAll (sendMessageStart "hi" initState).1).1).1.messages.filter
      (fun m => m.sender == Sender.bot && m.type == MsgType.text)).length = 1 := by
  decide

/-- Helper: `speak` never touches the conversation log. -/
theorem speak_preserves_messages (text : String) (s : AppState) :
    (speak text s).1.messages = s.messages := by
  unfold speak
  split
  · rfl
  · dsimp only
    split <;> rfl

/-- Claim C1 (amended): a response arriving after `stopAll` is NOT discarded.
Even when `isProcessing` is already false (as after `stopAll`), the resolve
continuation of `sendMessage` unconditionally appends the assistant message;
the code has no `isAwaitingReply` re-check and no sequence-number staleness
guard. -/
theorem resolve_ignores_staleness (answer : String) (nav : Bool) (s : AppState)
    (_hstale : s.isProcessing = false) (ha : answer ≠ "") :
    (sendMessageResolve (.success (some answer)) nav s).1.messages =
      s.messages ++ [⟨s.messageCounter + 1, answer, .bot, .text⟩] := by
  simp [sendMessageResolve, answerTextOf, ha, addMessage]
  split
  · rw [speak_preserves_messages]
  · rfl

/-- Witness for the amended C1: the quiesced (post-`stopAll`) fresh state
still receives the bot reply "there". -/
theorem resolve_ignores_staleness_witness :
    initState.isProcessing = false ∧ "there" ≠ "" ∧
    (sendMessageResolve (.success (some "there")) true initState).1.messages =
      initState.messages ++
        [⟨initState.messageCounter + 1, "there", .bot, .text⟩] :=
  ⟨rfl, by decide, resolve_ignores_staleness "there" true initState rfl (by decide)⟩

/-- Helper: the head of a non-empty `dropWhile p` result fails `p`. -/
theorem dropWhile_head_not {α : Type} (p : α → Bool) :
    ∀ (l : List α) (a : α) (t : List α), l.dropWhile p = a :: t → p a = false := by
  intro l
  induction l with
  | nil => intro a t h; simp [List.dropWhile] at h
  | cons b l ih =>
    intro a t h
    rw [List.dropWhile_cons] at h
    split at h
    · exact ih a t h
    · cases h
      simpa using ‹¬ p b = true›

/-- Helper: trimming a string whose trim is non-empty yields a string whose
trim is still non-empty (the residue has non-whitespace endpoints). -/
theorem jsTrim_jsTrim_ne (s : String) (h : jsTrim s ≠ "") :
    jsTrim (jsTrim s) ≠ "" := by
  intro hc
  apply h
  have hc1 : (((jsTrim s).data.dropWhile Char.isWhitespace).reverse.dropWhile
      Char.isWhitespace).reverse = [] := congrArg String.data hc
  have hc2 : ((jsTrim s).data.dropWhile Char.isWhitespace).reverse.dropWhile
      Char.isWhitespace = [] := by
    simpa using congrArg List.reverse hc1
  cases hd : (jsTrim s).data.dropWhile Char.isWhitespace with
  | cons a t =>
      exfalso
      have ha : Char.isWhitespace a = false := dropWhile_head_not _ _ a t hd
      rw [hd] at hc2
      have := List.dropWhile_eq_nil_iff.mp hc2 a (by simp)
      simp [ha] at this
  | nil =>
      have hall : ∀ x ∈ (jsTrim s).data, Char.isWhitespace x :=
        List.dropWhile_eq_nil_iff.mp hd
      cases hB : (s.data.dropWhile Char.isWhitespace).reverse.dropWhile
          Char.isWhitespace with
      | cons a t =>
          exfalso
          have ha : Char.isWhitespace a = false := dropWhile_head_not _ _ a t hB
          have hmem : a ∈ (jsTrim s).data := by simp [jsTrim, hB]
          have := hall a hmem
          simp [ha] at this
      | nil =>
          show jsTrim s = ""
          simp [jsTrim, hB]

/-- Claim C10: invoking the text-submit handler with non-blank pending input
always clears the input buffer to empty, even when the underlying submit is
rejected: while a dispatch is in flight the log and effects are untouched,
and while offline no dispatch is issued and nothing but an error-kind message
can be appended — the typed text itself is neither sent nor logged. -/
theorem handleSendText_clears_input (s : AppState) (h : jsTrim s.inputText ≠ "") :
    (handleSendText s).1.inputText = "" ∧
    (s.isProcessing = true →
      (handleSendText s).1.messages = s.messages ∧ (handleSendText s).2 = []) ∧
    (s.isProcessing = false → s.connectionOnline = false →
      (handleSendText s).2 = [] ∧
      ∀ m ∈ (handleSendText s).1.messages, m ∈ s.messages ∨ m.type = .error) := by
  refine ⟨?_, ?_, ?_⟩
  · simp [handleSendText, h]
  · intro hp
    simp [handleSendText, h, sendMessageStart, hp]
  · intro hp hc
    have hg := jsTrim_jsTrim_ne s.inputText h
    simp [handleSendText, h, sendMessageStart, hg, hp, hc, addMessage]
    intro m hm
    rcases hm with hm | hm
    · exact Or.inl hm
    · exact Or.inr (by simp [hm])

/-- Witness for C10: typed text "hi" while offline is discarded — the buffer
is cleared, nothing is dispatched, and only error-kind messages may have been
appended. -/
theorem handleSendText_clears_input_witness :
    (handleSendText { initState with inputText := "hi", connectionOnline := false }).1.inputText
      = "" ∧
    ((handleSendText { initState with inputText := "hi", connectionOnline := false }).2 = [] ∧
     ∀ m ∈ (handleSendText
        { initState with inputText := "hi", connectionOnline := false }).1.messages,
       m ∈ ({ initState with inputText := "hi", connectionOnline := false } : AppState).messages ∨
       m.type = .error) :=
  ⟨(handleSendText_clears_input _ (by decide)).1,
   (handleSendText_clears_input
      { initState with inputText := "hi", connectionOnline := false } (by decide)).2.2
     rfl rfl⟩
